import Mathlib

/-!
Shallow embedding of the relay core of the gemini-live-bridge service
(src/main.py): the two forwarding loops of the WebSocket endpoint and the
endpoint-level connect/teardown logic, together with theorems settling the
specification claims about them.
-/

namespace GeminiBridge

/-- Raw byte strings, modelled as lists of byte values. -/
abbrev Bytes := List Nat

/-- One inbound item observed by `websocket.receive_bytes()` in the
upstream-bound loop: a binary frame, a text frame, the peer disconnect
signal, or some other transport error. -/
inductive ClientMsg where
  | binary (data : Bytes)
  | text (s : String)
  | disconnect
  | transportError
deriving DecidableEq

/-- One call performed on the upstream session object.  The code in
src/main.py only ever performs `session.send` with an audio payload and
`end_of_turn=False`; the text variant exists in the session API and is
included so that claims about text input can be stated. -/
inductive UpstreamSend where
  | audio (data : Bytes) (end_of_turn : Bool)
  | textInput (s : String) (end_of_turn : Bool)
deriving DecidableEq

/-- How the upstream-bound loop ended on a given finite input trace:
`breakEmpty` is the `if not data: break` path, `disconnected` the
`except WebSocketDisconnect` path, `errored` the `except Exception` path,
and `pending` means the trace was exhausted with the loop still awaiting
its next frame. -/
inductive LoopExit where
  | breakEmpty
  | disconnected
  | errored
  | pending
deriving DecidableEq

/-- Upstream-bound loop of src/main.py (lines 68-85), `receive_from_client`:
repeatedly `data = await websocket.receive_bytes()`; `if not data: break`;
otherwise `session.send(input={data, mime_type audio/pcm}, end_of_turn=False)`.
`receive_bytes` returns the payload of a binary frame, raises
`WebSocketDisconnect` on peer disconnect (caught and logged, normal exit),
and raises on a text frame (the ASGI receive message of a text frame has no
bytes payload), which the `except Exception` arm turns into an errored exit.
The result is the list of upstream sends, in order, and the exit kind. -/
def receive_from_client : List ClientMsg → List UpstreamSend × LoopExit
  | [] => ([], .pending)
  | .binary data :: rest =>
      if data = [] then ([], .breakEmpty)
      else
        let r := receive_from_client rest
        (.audio data false :: r.1, r.2)
  | .text _ :: _ => ([], .errored)
  | .disconnect :: _ => ([], .disconnected)
  | .transportError :: _ => ([], .errored)

/-- The `inline_data` blob of a response part: its `data` field is an
optional byte string. -/
structure Blob where
  data : Option Bytes
deriving DecidableEq

/-- A part of a model turn.  The genai `Part` type also carries an optional
`text` field; src/main.py reads only `inline_data`, never `text`. -/
structure Part where
  inline_data : Option Blob
  text : Option String
deriving DecidableEq

/-- The `model_turn` content: a list of parts. -/
structure ModelTurn where
  parts : List Part
deriving DecidableEq

/-- The `server_content` of a live response: an optional model turn plus the
`interrupted` and `turn_complete` flags. -/
structure ServerContent where
  model_turn : Option ModelTurn
  interrupted : Bool
  turn_complete : Bool
deriving DecidableEq

/-- One response yielded by `session.receive()`: an optional `server_content`. -/
structure LiveResponse where
  server_content : Option ServerContent
deriving DecidableEq

/-- One frame sent to the client over the WebSocket. -/
inductive ClientFrame where
  | binaryFrame (data : Bytes)
  | textFrame (s : String)
deriving DecidableEq

/-- Per-part handling in src/main.py lines 99-103: `if part.inline_data and
part.inline_data.data: await websocket.send_bytes(part.inline_data.data)`.
Python truthiness makes a missing blob, a missing data field and an empty
byte string all fall through without sending. -/
def handle_part (p : Part) : List ClientFrame :=
  match p.inline_data with
  | some blob =>
      match blob.data with
      | some d => if d = [] then [] else [.binaryFrame d]
      | none => []
  | none => []

/-- The `for part in server_content.model_turn.parts` loop, in order. -/
def handle_parts : List Part → List ClientFrame
  | [] => []
  | p :: ps => handle_part p ++ handle_parts ps

/-- Per-response handling in src/main.py lines 92-113: skip when
`server_content` is None; when a `model_turn` is present, walk its parts;
the `interrupted` and `turn_complete` flags are only logged (lines 106-113),
so they contribute no client frames. -/
def handle_response (r : LiveResponse) : List ClientFrame :=
  match r.server_content with
  | none => []
  | some sc =>
      match sc.model_turn with
      | none => []
      | some mt => handle_parts mt.parts

/-- Downstream-bound loop of src/main.py (lines 88-115), `send_to_client`:
iterate the responses of `session.receive()` in order and emit the client
frames each one produces. -/
def send_to_client : List LiveResponse → List ClientFrame
  | [] => []
  | r :: rest => handle_response r ++ send_to_client rest

/-- Observable steps of the endpoint handler `websocket_endpoint`
(src/main.py lines 41-134), in program order. -/
inductive EndpointOp where
  | acceptClient
  | connectUpstream
  | connectUpstreamFailed
  | startLoops
  | waitFirstCompleted
  | cancelTask
  | closeUpstreamSession
  | sendErrorText (s : String)
  | closeClient (code : Nat)
  | logConnectionClosed
deriving DecidableEq

/-- The f-string `f"Error: {str(e)}"` sent to the client on a bridge error. -/
def errorMessage (e : String) : String := "Error: " ++ e

/-- Body of the `try` block at src/main.py lines 128-130: send the error
text, then `websocket.close()`, which in Starlette closes with the default
code 1000 (normal closure).  Either call may itself fail; the boolean
records whether an exception escaped the body (aborting the rest of it). -/
def notify_try_body (e : String) (sendFails closeFails : Bool) :
    List EndpointOp × Bool :=
  if sendFails then ([], true)
  else if closeFails then ([.sendErrorText (errorMessage e)], true)
  else ([.sendErrorText (errorMessage e), .closeClient 1000], false)

/-- The bare `except: pass` at src/main.py lines 131-132: whatever the try
body raised is swallowed; the steps already performed stand. -/
def except_pass (r : List EndpointOp × Bool) : List EndpointOp × Bool :=
  (r.1, false)

/-- Endpoint handler of src/main.py lines 41-134.  `connectOk` selects
between the two realizable runs: the steady-state run, in which the upstream
connect succeeds, both loops are started, `asyncio.wait` with
`return_when=FIRST_COMPLETED` returns once either loop completes, and the
`async with` exit closes the upstream session; and the failure run, in which
the `try` body raises (representatively: the upstream connect fails before
any loop starts), the `except` arm logs and makes the best-effort
notification guarded by `except: pass`, and no loop ever runs.  In both
runs the `finally` block logs.  The boolean result records whether an
exception escapes the handler. -/
def websocket_endpoint (connectOk : Bool) (e : String)
    (sendFails closeFails : Bool) : List EndpointOp × Bool :=
  if connectOk then
    ([.acceptClient, .connectUpstream, .startLoops, .waitFirstCompleted,
      .closeUpstreamSession, .logConnectionClosed], false)
  else
    let handler := except_pass (notify_try_body e sendFails closeFails)
    (.acceptClient :: .connectUpstreamFailed :: handler.1 ++
      [.logConnectionClosed], handler.2)

/-- A response whose single part carries audio bytes `d` in `inline_data`. -/
def audioResponse (d : Bytes) : LiveResponse :=
  { server_content :=
      some { model_turn := some { parts := [{ inline_data := some { data := some d },
                                              text := none }] },
             interrupted := false,
             turn_complete := false } }

/-- The well-formed text_input control frame carrying content hello. -/
def textInputHelloFrame : String :=
  "\x7b\"type\": \"text_input\", \"content\": \"hello\"\x7d"

/-- A response carrying only the `turn_complete` flag. -/
def turnCompleteResponse : LiveResponse :=
  { server_content :=
      some { model_turn := none, interrupted := false, turn_complete := true } }

/-- A response whose single part carries transcript text `t` and no audio. -/
def transcriptResponse (t : String) : LiveResponse :=
  { server_content :=
      some { model_turn := some { parts := [{ inline_data := none,
                                              text := some t }] },
             interrupted := false,
             turn_complete := false } }

/-! ## Theorems settling the claims -/

/-- C1 (amended): for every sequence of nonempty binary frames received from
the client WebSocket, the upstream-bound loop forwards each frame to the
upstream session as an audio input with end-of-turn false, in the order the
frames were received, with the byte content preserved exactly; the loop then
still awaits its next frame. -/
theorem C1_nonempty_binary_frames_forwarded_in_order
    (ds : List Bytes) (h : ∀ d ∈ ds, d ≠ []) :
    receive_from_client (ds.map ClientMsg.binary) =
      (ds.map (fun d => UpstreamSend.audio d false), LoopExit.pending) := by
  induction ds with
  | nil => rfl
  | cons d rest ih =>
      have hd : d ≠ [] := h d (List.mem_cons_self d rest)
      have hrest : ∀ x ∈ rest, x ≠ [] := fun x hx => h x (List.mem_cons_of_mem d hx)
      simp [receive_from_client, hd, ih hrest]

/-- C1 witness: the forwarding theorem applied to a concrete two-frame trace. -/
theorem C1_witness :
    receive_from_client ([[1], [2, 3]].map ClientMsg.binary) =
      ([[1], [2, 3]].map (fun d => UpstreamSend.audio d false), LoopExit.pending) :=
  C1_nonempty_binary_frames_forwarded_in_order [[1], [2, 3]] (by decide)

/-- C1 counterexample: on a trace containing an empty binary frame the loop
breaks at that frame and forwards nothing at all upstream, against the
claimed frame-for-frame forwarding of every received binary frame. -/
theorem C1_counterexample :
    (receive_from_client [ClientMsg.binary [], ClientMsg.binary [1]]).1 = [] ∧
    receive_from_client [ClientMsg.binary [], ClientMsg.binary [1]] ≠
      ([UpstreamSend.audio [] false, UpstreamSend.audio [1] false],
        LoopExit.pending) := by
  decide

/-- C2 (amended): every upstream audio-output event carrying nonempty bytes
is sent to the client as exactly one binary frame holding exactly those
bytes, one frame per event, in order, with no re-chunking, buffering or
modification. -/
theorem C2_audio_output_forwarded_unmodified
    (ds : List Bytes) (h : ∀ d ∈ ds, d ≠ []) :
    send_to_client (ds.map audioResponse) = ds.map ClientFrame.binaryFrame := by
  induction ds with
  | nil => rfl
  | cons d rest ih =>
      have hd : d ≠ [] := h d (List.mem_cons_self d rest)
      have hrest : ∀ x ∈ rest, x ≠ [] := fun x hx => h x (List.mem_cons_of_mem d hx)
      simp [send_to_client, handle_response, audioResponse, handle_parts,
        handle_part, hd, ih hrest]

/-- C2 witness: the audio forwarding theorem at a concrete two-event trace. -/
theorem C2_witness :
    send_to_client ([[1], [2, 3]].map audioResponse) =
      [[1], [2, 3]].map ClientFrame.binaryFrame :=
  C2_audio_output_forwarded_unmodified [[1], [2, 3]] (by decide)

/-- C2 counterexample: an audio-output event whose byte string is empty is
dropped by the truthiness test on the inline data and produces no binary
frame at all, not exactly one. -/
theorem C2_counterexample :
    send_to_client [audioResponse []] = [] ∧
    send_to_client [audioResponse []] ≠ [ClientFrame.binaryFrame []] := by
  decide

/-- C3 counterexample: on the well-formed text_input control frame with
content hello the upstream-bound loop exits with an error and the upstream
session receives nothing — in particular no turn-ending text input hello. -/
theorem C3_counterexample :
    receive_from_client [ClientMsg.text textInputHelloFrame] =
      ([], LoopExit.errored) ∧
    UpstreamSend.textInput "hello" true ∉
      (receive_from_client [ClientMsg.text textInputHelloFrame]).1 := by
  decide

/-- C3 (amended): an inbound text frame holding the well-formed text_input
control message with content hello makes the upstream-bound loop exit with
an error and forward nothing upstream, whatever frames follow: the loop only
ever performs a bytes-only receive, which fails on a text frame. -/
theorem C3_text_input_frame_errors_loop (rest : List ClientMsg) :
    receive_from_client (ClientMsg.text textInputHelloFrame :: rest) =
      ([], LoopExit.errored) := rfl

/-- C4 counterexample: a text frame whose body is not valid JSON terminates
the upstream-bound loop with an error instead of being silently discarded;
a binary frame queued after it is never forwarded. -/
theorem C4_counterexample :
    receive_from_client [ClientMsg.text "not json", ClientMsg.binary [1]] =
      ([], LoopExit.errored) ∧
    LoopExit.errored ≠ LoopExit.pending := by
  decide

/-- C4 (amended): every inbound text frame, whether or not its body is valid
JSON of type text_input, forwards nothing upstream and terminates the
upstream-bound loop with an error, so the session is torn down rather than
continued. -/
theorem C4_any_text_frame_terminates_loop (s : String) (rest : List ClientMsg) :
    receive_from_client (ClientMsg.text s :: rest) = ([], LoopExit.errored) ∧
    LoopExit.errored ≠ LoopExit.pending :=
  ⟨rfl, by decide⟩

/-- C5 counterexample: a response carrying the turn-complete flag produces no
client frame at all, in particular not the claimed turn_complete text frame. -/
theorem C5_counterexample :
    send_to_client [turnCompleteResponse] = [] ∧
    send_to_client [turnCompleteResponse] ≠
      [ClientFrame.textFrame "\x7b\"type\": \"turn_complete\"\x7d"] := by
  decide

/-- C5 (amended): a TurnComplete upstream event is only logged: the
turn-complete flag never influences the frames a response produces, and a
response carrying only that flag yields no client frame on either transport. -/
theorem C5_turn_complete_only_logged (mt : Option ModelTurn) (i : Bool) :
    handle_response ⟨some ⟨mt, i, true⟩⟩ =
      handle_response ⟨some ⟨mt, i, false⟩⟩ ∧
    send_to_client [turnCompleteResponse] = [] := by
  cases mt <;>
    simp [handle_response, send_to_client, turnCompleteResponse, handle_parts]

/-- C6 counterexample: a response whose part carries transcript text hi and
no inline audio produces no client frame, in particular not the claimed
structured text frame with that content. -/
theorem C6_counterexample :
    send_to_client [transcriptResponse "hi"] = [] ∧
    ClientFrame.textFrame "\x7b\"type\": \"text\", \"content\": \"hi\"\x7d" ∉
      send_to_client [transcriptResponse "hi"] := by
  decide

/-- C6 (amended): transcript text from the upstream service is never
forwarded: the frames a part produces do not depend on its text field, and a
response carrying only transcript text yields no client frame. -/
theorem C6_transcript_text_not_forwarded (t : String) (blob : Option Blob) :
    handle_part ⟨blob, some t⟩ = handle_part ⟨blob, none⟩ ∧
    send_to_client [transcriptResponse t] = [] := by
  cases blob <;>
    simp [handle_part, send_to_client, handle_response, transcriptResponse,
      handle_parts]

/-- C7 counterexample: in the steady-state run, after the first loop
completes, the endpoint performs no cancellation of the other loop's pending
task, against the claimed cancel-on-exit teardown. -/
theorem C7_counterexample :
    EndpointOp.cancelTask ∉ (websocket_endpoint true "e" false false).1 := by
  decide

/-- C7 (amended): when either forwarding loop completes, the endpoint stops
waiting, the upstream session is closed by the context-manager exit and the
handler finishes — so no upstream session outlives the run — but the relay
cancels no pending task and does not itself close the client transport in
this path; the framework closes it when the handler returns. -/
theorem C7_teardown_closes_upstream_without_cancel (e : String) (s c : Bool) :
    websocket_endpoint true e s c =
      ([.acceptClient, .connectUpstream, .startLoops, .waitFirstCompleted,
        .closeUpstreamSession, .logConnectionClosed], false) ∧
    EndpointOp.cancelTask ∉ (websocket_endpoint true e s c).1 ∧
    ∀ code, EndpointOp.closeClient code ∉ (websocket_endpoint true e s c).1 := by
  refine ⟨rfl, by simp [websocket_endpoint], fun code => by simp [websocket_endpoint]⟩

/-- C8 counterexample: when the upstream connect fails the only close issued
to the client uses the default code 1000, the normal-closure code, not a
distinguishable abnormal code such as 1011. -/
theorem C8_counterexample :
    (websocket_endpoint false "boom" false false).1 =
      [EndpointOp.acceptClient, EndpointOp.connectUpstreamFailed,
        EndpointOp.sendErrorText "Error: boom", EndpointOp.closeClient 1000,
        EndpointOp.logConnectionClosed] ∧
    EndpointOp.closeClient 1011 ∉ (websocket_endpoint false "boom" false false).1 := by
  decide

/-- C8 (amended): when opening the upstream session fails, neither forwarding
loop is ever started, and when the best-effort notification succeeds the
client receives the error text and is closed with the normal code 1000. -/
theorem C8_connect_failure_no_loops_normal_close (e : String) (s c : Bool) :
    EndpointOp.startLoops ∉ (websocket_endpoint false e s c).1 ∧
    (websocket_endpoint false e false false).1 =
      [EndpointOp.acceptClient, EndpointOp.connectUpstreamFailed,
        EndpointOp.sendErrorText (errorMessage e), EndpointOp.closeClient 1000,
        EndpointOp.logConnectionClosed] := by
  refine ⟨?_, rfl⟩
  cases s <;> cases c <;>
    simp [websocket_endpoint, notify_try_body, except_pass, errorMessage]

/-- C9: the best-effort diagnostic delivery on the error path never raises —
the bare except swallows any failure of the send or of the close — and
teardown still completes: in every run no exception escapes the handler and
the final logging step runs. -/
theorem C9_error_notification_never_raises (ok : Bool) (e : String) (s c : Bool) :
    (websocket_endpoint ok e s c).2 = false ∧
    EndpointOp.logConnectionClosed ∈ (websocket_endpoint ok e s c).1 := by
  cases ok <;> cases s <;> cases c <;>
    simp [websocket_endpoint, notify_try_body, except_pass]

/-- C10: an empty binary frame makes the upstream-bound loop exit at once
through the break, forwarding nothing upstream and ignoring whatever frames
follow; the exit is a completion rather than a pending wait, so the
first-completed wait triggers session teardown even though the client
connection is still open. -/
theorem C10_empty_frame_breaks_loop (rest : List ClientMsg) :
    receive_from_client (ClientMsg.binary [] :: rest) =
      ([], LoopExit.breakEmpty) ∧
    LoopExit.breakEmpty ≠ LoopExit.pending :=
  ⟨rfl, by decide⟩

end GeminiBridge
